import Mathlib

/-!
# Verification of the `async-connect.py` Connect API client

Shallow embedding of the transport layer (`async_connect/http.py`) and the
domain façade (`async_connect/client.py`) of the repository, together with
proofs of the spec's testable properties.

Conventions:
* Python `None` / dict / other JSON values returned by `json.loads` are
  modelled by `PyObj`.
* Raised Python exceptions are modelled by the `PyExc` error type of an
  `Except PyExc _` result.
* Machine-level HTTP transport (aiohttp) and `json.loads` are external
  collaborators: an `HttpResponse` carries the status, the raw body text and
  the outcome of `json.loads` on that text.
-/

set_option autoImplicit false

namespace AsyncConnect

/-- A JSON value, as produced by `json.loads` on a response body. -/
inductive Json where
  | null
  | bool (b : Bool)
  | num (n : Int)
  | str (s : String)
  | arr (elems : List Json)
  | obj (fields : List (String × Json))

/-- The Python value held in the local variable `data` of
`HTTPClient.request` (`http.py` lines 42-47): `None`, a dict, or some
other (non-dict) value produced by `json.loads`. -/
inductive PyObj where
  | none
  | dict (fields : List (String × Json))
  | other (j : Json)

/-- An HTTP response as seen by `HTTPClient.request`: the status code, the
body text (`await response.text()`), and the outcome of `json.loads` on that
text (`none` models a `json.decoder.JSONDecodeError`).  `json.loads` is the
Python standard library, an external collaborator, so its outcome is part of
the response model; note that on the empty string it always fails, which the
theorems below assume only where they must. -/
structure HttpResponse where
  status : Nat
  text : String
  parsed : Option Json

/-- Exceptions that the embedded code can raise.

The classes `HTTPSException`, `Unauthorized`, `Forbidden`, `NotFound` live in
`async_connect/errors.py`, which is not under `src/`; they are modelled from
the spec's error taxonomy (§7) as plain message carriers, with
`httpsException` also carrying the raw response (§4.1 "carries message + raw
response").  `attributeError` and `typeError` model the built-in Python
exceptions of the same names (e.g. `None.pop(...)` / `[].pop('message', _)`),
`valueError` models the `ValueError` raised by the playlist-entry validation
in `client.py` and carries the offending track id and release id, and
`keyError` models a failed dict subscript such as `data['results']`. -/
inductive PyExc where
  | unauthorized (msg : Json)
  | forbidden (msg : Json)
  | notFound (msg : Json)
  | httpsException (msg : Json) (response : HttpResponse)
  | attributeError
  | typeError
  | valueError (trackId : String) (releaseId : String)
  | keyError (key : String)

/-- Lines 43-47 of `http.py`: the value of `data` after the body text has been
read.  If `json.loads` succeeded, `data` is its result (a dict or another
JSON value); on a `JSONDecodeError`, `data = {'message': text} if text else
None`. -/
def dataOf (text : String) (parsed : Option Json) : PyObj :=
  match parsed with
  | some (Json.obj fields) => PyObj.dict fields
  | some j => PyObj.other j
  | none => if text = "" then PyObj.none else PyObj.dict [("message", Json.str text)]

/-- Models `data.pop('message', 'Unknown error')` (`http.py` lines 52-58).  On a
dict this yields the value of the `message` key, defaulting to the string
`'Unknown error'`.  On `None` Python raises `AttributeError` (`'NoneType'
object has no attribute 'pop'`); on a list `pop` exists but rejects a string
index with `TypeError`; on the remaining `json.loads` outputs (str, int,
bool, None-from-null) there is no `pop` attribute, hence `AttributeError`. -/
def popMessage : PyObj → Except PyExc Json
  | PyObj.dict fields => Except.ok ((fields.lookup "message").getD (Json.str "Unknown error"))
  | PyObj.none => Except.error PyExc.attributeError
  | PyObj.other (Json.arr _) => Except.error PyExc.typeError
  | PyObj.other _ => Except.error PyExc.attributeError

/-- Embeds `HTTPClient.request` (`http.py` lines 41-60), from the point where the
response has arrived: compute `data` from the body, return it on a 2xx
status, otherwise raise the error selected by the status code.  The trailing
`except Exception as e: raise e` re-raises unchanged and so is the identity
on this model. -/
def request (resp : HttpResponse) : Except PyExc PyObj :=
  let data := dataOf resp.text resp.parsed
  if 200 ≤ resp.status ∧ resp.status < 300 then
    Except.ok data
  else if resp.status = 401 then
    (popMessage data).bind fun m => Except.error (PyExc.unauthorized m)
  else if resp.status = 403 then
    (popMessage data).bind fun m => Except.error (PyExc.forbidden m)
  else if resp.status = 404 then
    (popMessage data).bind fun m => Except.error (PyExc.notFound m)
  else
    (popMessage data).bind fun m => Except.error (PyExc.httpsException m resp)

/-! ## Request preparation (headers, body serialization) -/

/-- Escapes one character for a JSON string literal (quote and backslash). -/
def jsonEscapeChar (c : Char) : List Char :=
  if c = '"' ∨ c = '\\' then ['\\', c] else [c]

/-- Renders a JSON string literal. -/
def jsonQuote (s : String) : String :=
  "\"" ++ String.mk (s.data.flatMap jsonEscapeChar) ++ "\""

mutual

/-- Modelled from the spec: `utils.to_json` lives in `async_connect/utils.py`,
which is not under `src/`.  Per §2 and §4.1 the transport "serializes request
bodies to JSON"; this is a standard JSON text serializer. -/
def to_json : Json → String
  | Json.null => "null"
  | Json.bool true => "true"
  | Json.bool false => "false"
  | Json.num n => toString n
  | Json.str s => jsonQuote s
  | Json.arr es => "[" ++ jsonArrBody es ++ "]"
  | Json.obj fs => "\x7b" ++ jsonObjBody fs ++ "\x7d"

/-- Comma-separated serialization of JSON array elements. -/
def jsonArrBody : List Json → String
  | [] => ""
  | [e] => to_json e
  | e :: rest => to_json e ++ "," ++ jsonArrBody rest

/-- Comma-separated serialization of JSON object fields. -/
def jsonObjBody : List (String × Json) → String
  | [] => ""
  | [(k, v)] => jsonQuote k ++ ":" ++ to_json v
  | (k, v) :: rest => jsonQuote k ++ ":" ++ to_json v ++ "," ++ jsonObjBody rest

end

/-- The outgoing request assembled by `HTTPClient.request` before it is
handed to the transport: the headers dict and the serialized body. -/
structure PreparedRequest where
  headers : List (String × String)
  body : Option String

/-- Embeds lines 32-40 of `http.py`: the headers dict starts with the
client's User-Agent; when a `json=` keyword argument is supplied, the
`Content-Type: application/json` header is added and the body is the result
of `utils.to_json` on that argument. -/
def prepareRequest (userAgent : String) (jsonBody : Option Json) : PreparedRequest :=
  match jsonBody with
  | Option.none =>
      { headers := [("User-Agent", userAgent)], body := Option.none }
  | some j =>
      { headers := [("User-Agent", userAgent), ("Content-Type", "application/json")],
        body := some (to_json j) }

/-! ## Endpoint constants (`http.py` lines 11-22) -/

namespace HTTPClient

def BASE : String := "https://connect.monstercat.com"

def SIGN_IN : String := BASE ++ "/signin"

def SIGN_OUT : String := BASE ++ "/signout"

def API_BASE : String := BASE ++ "/api"

def SELF : String := API_BASE ++ "/self"

def CATALOG : String := API_BASE ++ "/catalog"

def PLAYLIST : String := API_BASE ++ "/playlist"

def TRACK : String := CATALOG ++ "/track"

def RELEASE : String := CATALOG ++ "/release"

def ARTIST : String := CATALOG ++ "/artist"

def BROWSE : String := CATALOG ++ "/browse"

def BROWSE_FILTERS : String := BROWSE ++ "/filters"

end HTTPClient

/-! ## Percent-encoding (`urllib.parse.quote`) and f-string interpolation -/

/-- The UTF-8 encoding of one character, as a list of byte values; Python
strings are encoded to UTF-8 by `urllib.parse.quote` before percent-encoding. -/
def utf8Bytes (c : Char) : List Nat :=
  let n := c.toNat
  if n < 0x80 then [n]
  else if n < 0x800 then [0xC0 + n / 64, 0x80 + n % 64]
  else if n < 0x10000 then [0xE0 + n / 4096, 0x80 + (n / 64) % 64, 0x80 + n % 64]
  else [0xF0 + n / 262144, 0x80 + (n / 4096) % 64, 0x80 + (n / 64) % 64, 0x80 + n % 64]

/-- Bytes that `urllib.parse.quote` leaves unencoded with the default
`safe='/'`: ASCII letters, digits, `_`, `.`, `-`, `~` and `/`. -/
def isSafeByte (b : Nat) : Bool :=
  (48 ≤ b && b ≤ 57) || (65 ≤ b && b ≤ 90) || (97 ≤ b && b ≤ 122) ||
    b == 95 || b == 46 || b == 45 || b == 126 || b == 47

/-- Uppercase hexadecimal digit for a value below 16. -/
def hexDigit (n : Nat) : Char :=
  if n < 10 then Char.ofNat (48 + n) else Char.ofNat (55 + n)

/-- Percent-encoding of a single byte: safe bytes stand for themselves, all
others become a percent sign followed by two uppercase hex digits. -/
def quoteByte (b : Nat) : String :=
  if isSafeByte b then String.mk [Char.ofNat b]
  else String.mk ['%', hexDigit (b / 16), hexDigit (b % 16)]

/-- Concatenation of the per-byte encodings. -/
def quoteBytes : List Nat → String
  | [] => ""
  | b :: rest => quoteByte b ++ quoteBytes rest

/-- Models `urllib.parse.quote` (Python standard library, imported at
`client.py` line 37): UTF-8-encode the string and percent-encode every unsafe
byte, keeping `/` safe per the default. -/
def quote (s : String) : String :=
  quoteBytes (s.data.flatMap utf8Bytes)

/-- Python f-string interpolation of an `Optional[int]` parameter: `None`
renders as the four characters of its repr, an int as its decimal form. -/
def pyOptStr : Option Int → String
  | Option.none => "None"
  | some n => toString n

/-- Python truthiness of an `Optional[int]` value: `None` and `0` are falsy,
every other int is truthy. -/
def optIntTruthy : Option Int → Bool
  | Option.none => false
  | some n => n != 0

/-! ## Search URL construction (`client.py`) -/

/-- URL built by `Client.search_release` (`client.py` line 448). -/
def search_release_url (term : String) (limit skip : Option Int) : String :=
  HTTPClient.RELEASE ++ "?fuzzyOr=title," ++ quote term ++ ",renderedArtists," ++ quote term ++
    "&limit=" ++ pyOptStr limit ++ "&skip=" ++ pyOptStr skip

/-- URL built by `Client.search_release_advanced` (`client.py` line 476). -/
def search_release_advanced_url (title artists : String) (limit skip : Option Int) : String :=
  HTTPClient.RELEASE ++ "?fuzzy=title," ++ quote title ++ ",renderedArtists," ++ quote artists ++
    "&limit=" ++ pyOptStr limit ++ "&skip=" ++ pyOptStr skip

/-- URL built by `Client.search_track` (`client.py` line 502). -/
def search_track_url (term : String) (limit skip : Option Int) : String :=
  HTTPClient.TRACK ++ "?fuzzyOr=title," ++ quote term ++ ",artistsTitle," ++ quote term ++
    "&limit=" ++ pyOptStr limit ++ "&skip=" ++ pyOptStr skip

/-- URL built by `Client.search_track_advanced` (`client.py` line 530). -/
def search_track_advanced_url (title artists : String) (limit skip : Option Int) : String :=
  HTTPClient.TRACK ++ "?fuzzy=title," ++ quote title ++ ",artistsTitle," ++ quote artists ++
    "&limit=" ++ pyOptStr limit ++ "&skip=" ++ pyOptStr skip

/-- URL built by `Client.search_artist` (`client.py` lines 558-560): limit
and skip come first, the optional year filter is appended to the fuzzyOr
clause only when truthy. -/
def search_artist_url (term : String) (year limit skip : Option Int) : String :=
  let base := HTTPClient.ARTIST ++ "?limit=" ++ pyOptStr limit ++ "&skip=" ++ pyOptStr skip ++
    "&fuzzyOr=name," ++ quote term
  if optIntTruthy year then base ++ ",year," ++ toString (year.getD 0) else base

/-- URL built by `Client.search_playlist` (`client.py` line 589). -/
def search_playlist_url (term : String) (limit skip : Option Int) : String :=
  HTTPClient.PLAYLIST ++ "?fuzzyOr=name," ++ quote term ++
    "&limit=" ++ pyOptStr limit ++ "&skip=" ++ pyOptStr skip

/-! ## Client lifecycle (`client.py` lines 41-85) -/

/-- The mutable state relevant to `Client.close`: the `_is_closed` flag and,
for accounting, how many times `self.http.close()` has been awaited. -/
structure ClientState where
  isClosed : Bool
  httpCloseCalls : Nat
  deriving DecidableEq

/-- State of a freshly constructed client (`client.py` line 45 sets
`_is_closed = False`; no transport close has happened). -/
def Client.initState : ClientState :=
  { isClosed := false, httpCloseCalls := 0 }

/-- Embeds `Client.close` (`client.py` lines 79-85): a closed client returns
unchanged; otherwise the transport is closed once and the flag is set. -/
def Client.close (s : ClientState) : ClientState :=
  if s.isClosed then s
  else { isClosed := true, httpCloseCalls := s.httpCloseCalls + 1 }

/-- Which sign-in request `Client.sign_in` delegates to.  The two targets
(`HTTPClient.email_sign_in` and `HTTPClient.two_feature_sign_in`) are in the
part of `http.py` not under `src/`; per spec §4.2 they post the credentials
to the single-factor and the two-factor variant of the sign-in endpoint, so
they are modelled as opaque request labels. -/
inductive SignInRequest where
  | emailSignIn (email password : String)
  | twoFactorSignIn (email password : String) (token : Int)
  deriving DecidableEq

/-- Embeds `Client.sign_in` (`client.py` lines 64-67): `if not token:` takes
the single-factor branch, i.e. branch selection is by Python truthiness of
the optional token. -/
def Client.sign_in (email password : String) (token : Option Int) : SignInRequest :=
  if optIntTruthy token = false then SignInRequest.emailSignIn email password
  else SignInRequest.twoFactorSignIn email password (token.getD 0)

/-! ## Playlist entry validation (`client.py` lines 87-204) -/

/-- Modelled from the spec (§3): an element of a track's `albums` collection
carries the id of a release the track appears on.  The `Track` class lives in
`async_connect/track.py`, which is not under `src/`; only the field the
validation code reads is modelled. -/
structure Album where
  id : String
  deriving DecidableEq

/-- Modelled from the spec (§3): a track has an id and the set of releases it
appears on (`albums`).  Other fields are never read by the validation code. -/
structure Track where
  id : String
  albums : List Album
  deriving DecidableEq

/-- Modelled from the spec (§3): a release, of which the validation code
reads only the id.  The class lives in `async_connect/release.py`, not under
`src/`. -/
structure Release where
  id : String
  deriving DecidableEq

/-- Modelled from the spec: `utils.find` lives in `async_connect/utils.py`,
not under `src/`.  It returns the first element of the sequence satisfying
the predicate, if any; `client.py` uses its truthiness as "the release id
appears in the track's albums set" (spec §3 invariant). -/
def find {α : Type} (p : α → Bool) : List α → Option α
  | [] => Option.none
  | x :: xs => if p x then some x else find p xs

/-- The validation loop shared by `Client.create_playlist` (lines 107-112)
and `Client.add_playlist_tracks` (lines 198-203): walk the entries in order,
translating each valid `(track, release)` pair to its
`{'trackId': ..., 'releaseId': ...}` JSON entry and raising `ValueError` at
the first pair whose release id is not found in the track's albums. -/
def buildEntries : List (Track × Release) → Except PyExc (List (String × String))
  | [] => Except.ok []
  | (t, r) :: rest =>
    if (find (fun a => a.id == r.id) t.albums).isSome then
      (buildEntries rest).map fun es => (t.id, r.id) :: es
    else
      Except.error (PyExc.valueError t.id r.id)

/-- The mutating HTTP requests that the playlist methods can issue.  The
`HTTPClient` methods they call (`create_playlist`, `add_playlist_track`,
`add_playlist_tracks`) are in the part of `http.py` not under `src/`;
modelled from the spec (§4.5): after client-side validation each method
issues exactly one authenticated request, labelled here by its arguments. -/
inductive HttpCall where
  | createPlaylist (name : String) (isPublic : Bool) (entries : Option (List (String × String)))
  | addPlaylistTrack (playlistId trackId releaseId : String)
  | addPlaylistTracks (playlistId : String) (entries : List (String × String))
  deriving DecidableEq

/-- Embeds `Client.create_playlist` (`client.py` lines 106-116), returning
the list of HTTP requests issued: `if entries:` is Python truthiness, so both
`None` and the empty list skip validation and post without an entries field. -/
def Client.create_playlist (name : String) (isPublic : Bool)
    (entries : Option (List (Track × Release))) : Except PyExc (List HttpCall) :=
  match entries with
  | some es =>
      if es.isEmpty then Except.ok [HttpCall.createPlaylist name isPublic Option.none]
      else (buildEntries es).map fun js => [HttpCall.createPlaylist name isPublic (some js)]
  | Option.none => Except.ok [HttpCall.createPlaylist name isPublic Option.none]

/-- Embeds `Client.add_playlist_track` (`client.py` lines 176-179). -/
def Client.add_playlist_track (playlistId : String) (t : Track) (r : Release) :
    Except PyExc (List HttpCall) :=
  if (find (fun a => a.id == r.id) t.albums).isSome then
    Except.ok [HttpCall.addPlaylistTrack playlistId t.id r.id]
  else
    Except.error (PyExc.valueError t.id r.id)

/-- Embeds `Client.add_playlist_tracks` (`client.py` lines 198-204). -/
def Client.add_playlist_tracks (playlistId : String) (entries : List (Track × Release)) :
    Except PyExc (List HttpCall) :=
  (buildEntries entries).map fun js => [HttpCall.addPlaylistTracks playlistId js]

/-! ## Results deserialization loops (`client.py` lines 326-596)

Entity construction (`Release(**json)` and friends) lives in the entity
modules, which are not under `src/`; per spec §3/§9 each entity is hydrated
from one JSON object.  The loops below therefore take the constructor as a
parameter `mk`; the claims settled here do not depend on it. -/

/-- One step of `out.append(Entity(**element))` over a whole list. -/
def buildList {α : Type} (mk : Json → Except PyExc α) : List Json → Except PyExc (List α)
  | [] => Except.ok []
  | j :: rest => (mk j).bind fun x => (buildList mk rest).map fun xs => x :: xs

/-- The shared shape of the bulk accessors (`client.py` lines 344-348,
360-364, 378-382, 392-396): subscript `data['results']` and fold the entity
constructor over it.  Subscripting `None` or a non-dict raises `TypeError`, a
dict without the key raises `KeyError`, and iterating a non-list value into
`Entity(**x)` raises `TypeError`. -/
def collectResults {α : Type} (mk : Json → Except PyExc α) (data : PyObj) :
    Except PyExc (List α) :=
  match data with
  | PyObj.dict fields =>
      match fields.lookup "results" with
      | some (Json.arr rs) => buildList mk rs
      | some _ => Except.error PyExc.typeError
      | Option.none => Except.error (PyExc.keyError "results")
  | PyObj.none => Except.error PyExc.typeError
  | PyObj.other _ => Except.error PyExc.typeError

/-- Result processing of `Client.get_all_releases` (`client.py` 344-348). -/
def Client.get_all_releases {α : Type} (mk : Json → Except PyExc α) (data : PyObj) :
    Except PyExc (List α) :=
  collectResults mk data

/-- Result processing of `Client.get_all_tracks` (`client.py` 360-364). -/
def Client.get_all_tracks {α : Type} (mk : Json → Except PyExc α) (data : PyObj) :
    Except PyExc (List α) :=
  collectResults mk data

/-- Result processing of `Client.get_all_artists` (`client.py` 378-382). -/
def Client.get_all_artists {α : Type} (mk : Json → Except PyExc α) (data : PyObj) :
    Except PyExc (List α) :=
  collectResults mk data

/-- Result processing of `Client.get_all_playlists` (`client.py` 392-396). -/
def Client.get_all_playlists {α : Type} (mk : Json → Except PyExc α) (data : PyObj) :
    Except PyExc (List α) :=
  collectResults mk data

/-- The shared tail of the search and browse methods: build the list as the
bulk accessors do, then `if not out: raise NotFound(msg) else: return out`. -/
def searchProcess {α : Type} (mk : Json → Except PyExc α) (noneFoundMsg : String)
    (data : PyObj) : Except PyExc (List α) :=
  (collectResults mk data).bind fun xs =>
    if xs.isEmpty then Except.error (PyExc.notFound (Json.str noneFoundMsg)) else Except.ok xs

/-- Result processing of `Client.search_release` (`client.py` 447-454). -/
def Client.search_release_results {α : Type} (mk : Json → Except PyExc α) (data : PyObj) :
    Except PyExc (List α) :=
  searchProcess mk "No release was found." data

/-- Result processing of `Client.search_release_advanced` (`client.py` 475-482). -/
def Client.search_release_advanced_results {α : Type} (mk : Json → Except PyExc α)
    (data : PyObj) : Except PyExc (List α) :=
  searchProcess mk "No release was found." data

/-- Result processing of `Client.search_track` (`client.py` 501-508). -/
def Client.search_track_results {α : Type} (mk : Json → Except PyExc α) (data : PyObj) :
    Except PyExc (List α) :=
  searchProcess mk "No track was found." data

/-- Result processing of `Client.search_track_advanced` (`client.py` 529-536). -/
def Client.search_track_advanced_results {α : Type} (mk : Json → Except PyExc α)
    (data : PyObj) : Except PyExc (List α) :=
  searchProcess mk "No track was found." data

/-- Result processing of `Client.search_artist` (`client.py` 557-567). -/
def Client.search_artist_results {α : Type} (mk : Json → Except PyExc α) (data : PyObj) :
    Except PyExc (List α) :=
  searchProcess mk "No artist was found." data

/-- Result processing of `Client.search_playlist` (`client.py` 588-595). -/
def Client.search_playlist_results {α : Type} (mk : Json → Except PyExc α) (data : PyObj) :
    Except PyExc (List α) :=
  searchProcess mk "No playlist was found." data

/-- Result processing of `Client.get_browse_entries` (`client.py` 421-428). -/
def Client.get_browse_entries_results {α : Type} (mk : Json → Except PyExc α) (data : PyObj) :
    Except PyExc (List α) :=
  searchProcess mk "No browse entry was found." data

/-- Characters that may appear in the output of `quote`: unreserved URL
characters, the safe slash, and the percent sign introducing a hex escape. -/
def urlSafeChar (c : Char) : Bool :=
  c.isAlphanum || c == '_' || c == '.' || c == '-' || c == '~' || c == '/' || c == '%'

/-! ## Helper lemmas -/

theorem string_data_append (a b : String) : (a ++ b).data = a.data ++ b.data := rfl

theorem buildEntries_ok_of_all_valid (es : List (Track × Release))
    (h : ∀ p ∈ es, (find (fun a => a.id == p.2.id) p.1.albums).isSome = true) :
    ∃ js, buildEntries es = Except.ok js := by
  induction es with
  | nil => exact ⟨[], rfl⟩
  | cons p rest ih =>
    obtain ⟨t, r⟩ := p
    obtain ⟨js, hjs⟩ := ih (fun q hq => h q (List.mem_cons_of_mem _ hq))
    have hv := h (t, r) (List.mem_cons_self _ _)
    exact ⟨(t.id, r.id) :: js, by simp [buildEntries, hv, hjs, Except.map]⟩

theorem buildEntries_valueError_of_invalid (es : List (Track × Release))
    (h : ∃ p ∈ es, (find (fun a => a.id == p.2.id) p.1.albums).isSome = false) :
    ∃ tid rid, buildEntries es = Except.error (PyExc.valueError tid rid) := by
  induction es with
  | nil => simp at h
  | cons p rest ih =>
    obtain ⟨t, r⟩ := p
    by_cases hv : (find (fun a => a.id == r.id) t.albums).isSome = true
    · obtain ⟨q, hq, hqv⟩ := h
      rcases List.mem_cons.1 hq with hq | hq
      · rw [hq] at hqv; rw [hqv] at hv; exact absurd hv (by simp)
      · obtain ⟨tid, rid, he⟩ := ih ⟨q, hq, hqv⟩
        exact ⟨tid, rid, by simp [buildEntries, hv, he, Except.map]⟩
    · exact ⟨t.id, r.id, by simp [buildEntries, hv]⟩

theorem utf8Bytes_lt_256 (c : Char) : ∀ b ∈ utf8Bytes c, b < 256 := by
  intro b hb
  have hc : c.toNat < 1114112 := by
    rcases c.valid with h | ⟨h1, h2⟩
    · exact Nat.lt_trans h (by omega)
    · exact h2
  unfold utf8Bytes at hb
  by_cases h1 : c.toNat < 128
  · simp [h1] at hb; omega
  · by_cases h2 : c.toNat < 2048
    · simp [h1, h2] at hb; rcases hb with hb | hb <;> omega
    · by_cases h3 : c.toNat < 65536
      · simp [h1, h2, h3] at hb; rcases hb with hb | hb | hb <;> omega
      · simp [h1, h2, h3] at hb; rcases hb with hb | hb | hb | hb <;> omega

set_option maxRecDepth 8192 in
theorem quoteByte_chars_safe_aux :
    (List.range 256).all (fun b => (quoteByte b).data.all urlSafeChar) = true := by decide

theorem quoteByte_chars_safe :
    ∀ b : Nat, b < 256 → ∀ c ∈ (quoteByte b).data, urlSafeChar c = true := by
  intro b hb c hc
  have haux := List.all_eq_true.1 quoteByte_chars_safe_aux b (List.mem_range.2 hb)
  exact List.all_eq_true.1 haux c hc

theorem quoteBytes_chars_safe (bs : List Nat) (hbs : ∀ b ∈ bs, b < 256) :
    ∀ c ∈ (quoteBytes bs).data, urlSafeChar c = true := by
  induction bs with
  | nil => intro c hc; exact absurd hc (List.not_mem_nil c)
  | cons b rest ih =>
    intro c hc
    have hsplit : (quoteBytes (b :: rest)).data = (quoteByte b).data ++ (quoteBytes rest).data := rfl
    rw [hsplit] at hc
    rcases List.mem_append.1 hc with h | h
    · exact quoteByte_chars_safe b (hbs b (List.mem_cons_self _ _)) c h
    · exact ih (fun x hx => hbs x (List.mem_cons_of_mem _ hx)) c h

theorem quote_chars_safe (s : String) : ∀ c ∈ (quote s).data, urlSafeChar c = true := by
  refine quoteBytes_chars_safe _ ?_
  intro b hb
  obtain ⟨ch, _, hb'⟩ := List.mem_flatMap.1 hb
  exact utf8Bytes_lt_256 ch b hb'

theorem infix_shift (pat l₁ l₂ : List Char) (h : ∃ s t, s ++ pat ++ t = l₂) :
    ∃ s t, s ++ pat ++ t = l₁ ++ l₂ := by
  obtain ⟨s, t, hst⟩ := h
  exact ⟨l₁ ++ s, t, by rw [← hst]; simp [List.append_assoc]⟩

/-! ## Claims -/

/-- C5: for every 2xx response, `HTTPClient.request` returns the body parsed
as JSON; when parsing fails on a non-empty body it returns the dict
`{'message': <raw text>}`; when the body is empty it returns `None`. -/
theorem request_2xx_returns_parsed_body (resp : HttpResponse)
    (h : 200 ≤ resp.status ∧ resp.status < 300) :
    request resp = Except.ok (match resp.parsed with
      | some (Json.obj fields) => PyObj.dict fields
      | some j => PyObj.other j
      | Option.none =>
          if resp.text = "" then PyObj.none
          else PyObj.dict [("message", Json.str resp.text)]) := by
  simp only [request]
  rw [if_pos h]
  rfl

/-- Witness for C5 at a 200 response whose body is the non-JSON text "hi". -/
theorem request_2xx_returns_parsed_body_witness :
    request ⟨200, "hi", Option.none⟩ = Except.ok (PyObj.dict [("message", Json.str "hi")]) :=
  request_2xx_returns_parsed_body ⟨200, "hi", Option.none⟩ (by exact ⟨by decide, by decide⟩)

/-- C6: `Client.close` is idempotent; the first call sets the closed flag
and closes the transport, and however many times it is called, the transport
close happens exactly once over the client's lifetime. -/
theorem close_idempotent_transport_closed_once :
    (∀ s : ClientState, Client.close (Client.close s) = Client.close s) ∧
    Client.close Client.initState = { isClosed := true, httpCloseCalls := 1 } ∧
    (∀ n : Nat, 1 ≤ n →
      Nat.iterate Client.close n Client.initState = { isClosed := true, httpCloseCalls := 1 }) := by
  refine ⟨?_, rfl, ?_⟩
  · intro s
    by_cases hs : s.isClosed = true <;> simp [Client.close, hs]
  · intro n hn
    induction n with
    | zero => omega
    | succ m ih =>
      rw [Function.iterate_succ_apply']
      by_cases hm : m = 0
      · subst hm; rfl
      · rw [ih (by omega)]; rfl

/-- Witness for C6: after three calls to close, the transport was closed
exactly once and the flag is set. -/
theorem close_idempotent_transport_closed_once_witness :
    Nat.iterate Client.close 3 Client.initState = { isClosed := true, httpCloseCalls := 1 } :=
  close_idempotent_transport_closed_once.2.2 3 (by omega)

/-- C7: every prepared request carries the User-Agent header; the
Content-Type header is present iff a JSON body was supplied, in which case
the body is its serialization. -/
theorem request_headers_and_body (ua : String) (jsonBody : Option Json) :
    ("User-Agent", ua) ∈ (prepareRequest ua jsonBody).headers ∧
    ((("Content-Type", "application/json") ∈ (prepareRequest ua jsonBody).headers) ↔
      jsonBody.isSome = true) ∧
    (prepareRequest ua jsonBody).body = jsonBody.map to_json := by
  cases jsonBody <;> simp [prepareRequest]

/-- C1 counterexample: a 401 response with an empty body.  The claim says
every non-2xx response raises the status-selected error kind with the
message defaulting to "Unknown error" when the body has no message field;
but with an empty body `data` is `None` and `data.pop` raises
`AttributeError` instead of the promised `Unauthorized('Unknown error')`. -/
theorem request_401_empty_body_attribute_error :
    request ⟨401, "", Option.none⟩ = Except.error PyExc.attributeError ∧
    request ⟨401, "", Option.none⟩ ≠
      Except.error (PyExc.unauthorized (Json.str "Unknown error")) := by
  refine ⟨rfl, ?_⟩
  intro h
  rw [show request ⟨401, "", Option.none⟩ = Except.error PyExc.attributeError from rfl] at h
  exact PyExc.noConfusion (Except.error.inj h)

/-- C1 (amended): for every non-2xx response whose body yields a dict (a
JSON object body, or a non-empty body that is not valid JSON), the error
kind selected by the status is raised — 401 Unauthorized, 403 Forbidden,
404 NotFound, any other non-2xx the generic HTTPSException carrying the raw
response — and the message is the dict's `message` value, defaulting to
"Unknown error" when absent.  (When the body is empty or parses to a
non-object JSON value, the lookup itself fails instead; see the
counterexample.) -/
theorem request_non2xx_dict_body_error_mapping (resp : HttpResponse)
    (fields : List (String × Json))
    (hdict : dataOf resp.text resp.parsed = PyObj.dict fields)
    (hst : ¬(200 ≤ resp.status ∧ resp.status < 300)) :
    request resp = Except.error
      (if resp.status = 401 then
        PyExc.unauthorized ((fields.lookup "message").getD (Json.str "Unknown error"))
      else if resp.status = 403 then
        PyExc.forbidden ((fields.lookup "message").getD (Json.str "Unknown error"))
      else if resp.status = 404 then
        PyExc.notFound ((fields.lookup "message").getD (Json.str "Unknown error"))
      else
        PyExc.httpsException ((fields.lookup "message").getD (Json.str "Unknown error")) resp) := by
  by_cases h1 : resp.status = 401
  · simp [request, hdict, hst, h1, popMessage, Except.bind]
  · by_cases h3 : resp.status = 403
    · simp [request, hdict, hst, h1, h3, popMessage, Except.bind]
    · by_cases h4 : resp.status = 404
      · simp [request, hdict, hst, h1, h3, h4, popMessage, Except.bind]
      · simp [request, hdict, hst, h1, h3, h4, popMessage, Except.bind]

/-- Witness for the amended C1 at a 404 response with a JSON object body
carrying a message. -/
theorem request_non2xx_dict_body_error_mapping_witness :
    request ⟨404, "{}", some (Json.obj [("message", Json.str "missing")])⟩ =
      Except.error (PyExc.notFound (Json.str "missing")) := by
  have h := request_non2xx_dict_body_error_mapping
    ⟨404, "{}", some (Json.obj [("message", Json.str "missing")])⟩
    [("message", Json.str "missing")] rfl (by decide)
  exact h.trans (by rfl)

/-- C2: the playlist mutation calls raise `ValueError` — issuing no HTTP
request — whenever some supplied (track, release) pair has the release id
absent from the track's albums, and issue exactly one mutating request,
raising nothing, when every supplied pair is valid. -/
theorem playlist_mutation_validates_entries (name playlistId : String) (isPublic : Bool)
    (entries : List (Track × Release)) (t : Track) (r : Release) :
    ((∃ p ∈ entries, (find (fun a => a.id == p.2.id) p.1.albums).isSome = false) →
      (∃ tid rid, Client.create_playlist name isPublic (some entries) =
        Except.error (PyExc.valueError tid rid)) ∧
      (∃ tid rid, Client.add_playlist_tracks playlistId entries =
        Except.error (PyExc.valueError tid rid))) ∧
    ((find (fun a => a.id == r.id) t.albums).isSome = false →
      Client.add_playlist_track playlistId t r = Except.error (PyExc.valueError t.id r.id)) ∧
    ((∀ p ∈ entries, (find (fun a => a.id == p.2.id) p.1.albums).isSome = true) →
      (∃ c, Client.create_playlist name isPublic (some entries) = Except.ok [c]) ∧
      (∃ c, Client.add_playlist_tracks playlistId entries = Except.ok [c])) ∧
    ((find (fun a => a.id == r.id) t.albums).isSome = true →
      Client.add_playlist_track playlistId t r =
        Except.ok [HttpCall.addPlaylistTrack playlistId t.id r.id]) := by
  refine ⟨?_, ?_, ?_, ?_⟩
  · intro hbad
    obtain ⟨tid, rid, he⟩ := buildEntries_valueError_of_invalid entries hbad
    have hne : entries.isEmpty = false := by
      obtain ⟨p, hp, _⟩ := hbad
      cases entries with
      | nil => exact absurd hp (List.not_mem_nil p)
      | cons _ _ => rfl
    constructor
    · exact ⟨tid, rid, by simp [Client.create_playlist, hne, he, Except.map]⟩
    · exact ⟨tid, rid, by simp [Client.add_playlist_tracks, he, Except.map]⟩
  · intro hv
    simp [Client.add_playlist_track, hv]
  · intro hok
    obtain ⟨js, hjs⟩ := buildEntries_ok_of_all_valid entries hok
    constructor
    · cases entries with
      | nil => exact ⟨HttpCall.createPlaylist name isPublic Option.none, rfl⟩
      | cons p rest =>
        exact ⟨HttpCall.createPlaylist name isPublic (some js),
          by simp [Client.create_playlist, hjs, Except.map]⟩
    · exact ⟨HttpCall.addPlaylistTracks playlistId js,
        by simp [Client.add_playlist_tracks, hjs, Except.map]⟩
  · intro hv
    simp [Client.add_playlist_track, hv]

/-- Witness for C2: a concrete invalid pair is rejected with `ValueError`
and a concrete valid pair issues its single request. -/
theorem playlist_mutation_validates_entries_witness :
    (∃ tid rid,
      Client.create_playlist "mix" false (some [(⟨"T1", []⟩, ⟨"R1"⟩)]) =
        Except.error (PyExc.valueError tid rid)) ∧
    Client.add_playlist_track "PL" ⟨"T2", [⟨"R2"⟩]⟩ ⟨"R2"⟩ =
      Except.ok [HttpCall.addPlaylistTrack "PL" "T2" "R2"] := by
  constructor
  · exact ((playlist_mutation_validates_entries "mix" "PL" false [(⟨"T1", []⟩, ⟨"R1"⟩)]
      ⟨"T2", [⟨"R2"⟩]⟩ ⟨"R2"⟩).1 ⟨(⟨"T1", []⟩, ⟨"R1"⟩), by simp, by decide⟩).1
  · exact (playlist_mutation_validates_entries "mix" "PL" false []
      ⟨"T2", [⟨"R2"⟩]⟩ ⟨"R2"⟩).2.2.2 (by decide)

/-- C3: every bulk-listing accessor maps a response whose `results` array is
empty to the empty list, raising no error. -/
theorem get_all_empty_results_yield_empty_list {α : Type} (mk : Json → Except PyExc α)
    (data : PyObj) (fields : List (String × Json))
    (hdata : data = PyObj.dict fields)
    (hres : fields.lookup "results" = some (Json.arr [])) :
    Client.get_all_releases mk data = Except.ok [] ∧
    Client.get_all_tracks mk data = Except.ok [] ∧
    Client.get_all_artists mk data = Except.ok [] ∧
    Client.get_all_playlists mk data = Except.ok [] := by
  subst hdata
  refine ⟨?_, ?_, ?_, ?_⟩ <;>
    simp [Client.get_all_releases, Client.get_all_tracks, Client.get_all_artists,
      Client.get_all_playlists, collectResults, hres, buildList]

/-- Witness for C3 on a concrete empty-results response. -/
theorem get_all_empty_results_yield_empty_list_witness :
    Client.get_all_releases (fun _ => Except.ok ()) (PyObj.dict [("results", Json.arr [])]) =
      Except.ok [] ∧
    Client.get_all_playlists (fun _ => Except.ok ()) (PyObj.dict [("results", Json.arr [])]) =
      Except.ok [] := by
  have h := get_all_empty_results_yield_empty_list (fun _ => Except.ok ())
    (PyObj.dict [("results", Json.arr [])]) [("results", Json.arr [])] rfl rfl
  exact ⟨h.1, h.2.2.2⟩

/-- C4: every search call and the browse call raise `NotFound` — with the
method-specific message — when the `results` array is empty, instead of
returning an empty list; in particular `search_track` raises NotFound with
message "No track was found.". -/
theorem search_empty_results_raise_not_found {α : Type} (mk : Json → Except PyExc α)
    (data : PyObj) (fields : List (String × Json))
    (hdata : data = PyObj.dict fields)
    (hres : fields.lookup "results" = some (Json.arr [])) :
    Client.search_release_results mk data =
      Except.error (PyExc.notFound (Json.str "No release was found.")) ∧
    Client.search_release_advanced_results mk data =
      Except.error (PyExc.notFound (Json.str "No release was found.")) ∧
    Client.search_track_results mk data =
      Except.error (PyExc.notFound (Json.str "No track was found.")) ∧
    Client.search_track_advanced_results mk data =
      Except.error (PyExc.notFound (Json.str "No track was found.")) ∧
    Client.search_artist_results mk data =
      Except.error (PyExc.notFound (Json.str "No artist was found.")) ∧
    Client.search_playlist_results mk data =
      Except.error (PyExc.notFound (Json.str "No playlist was found.")) ∧
    Client.get_browse_entries_results mk data =
      Except.error (PyExc.notFound (Json.str "No browse entry was found.")) := by
  subst hdata
  refine ⟨?_, ?_, ?_, ?_, ?_, ?_, ?_⟩ <;>
    simp [Client.search_release_results, Client.search_release_advanced_results,
      Client.search_track_results, Client.search_track_advanced_results,
      Client.search_artist_results, Client.search_playlist_results,
      Client.get_browse_entries_results, searchProcess, collectResults, hres, buildList,
      Except.bind]

/-- Witness for C4 on a concrete empty-results response. -/
theorem search_empty_results_raise_not_found_witness :
    Client.search_track_results (fun _ => Except.ok ()) (PyObj.dict [("results", Json.arr [])]) =
      Except.error (PyExc.notFound (Json.str "No track was found.")) :=
  (search_empty_results_raise_not_found (fun _ => Except.ok ())
    (PyObj.dict [("results", Json.arr [])]) [("results", Json.arr [])] rfl rfl).2.2.1

/-- C8: the simple search methods build their query with the
OR-across-fields operator `fuzzyOr` over the relevant fields, the advanced
search methods with the AND-across-fields operator `fuzzy`, and every
user-supplied term enters the URL through `quote`, whose output consists
only of URL-safe characters (unreserved characters, the safe slash, and
percent-escapes). -/
theorem search_query_operators_and_encoding (term title artists : String)
    (limit skip : Option Int) :
    search_release_url term limit skip =
      HTTPClient.RELEASE ++ "?fuzzyOr=title," ++ quote term ++ ",renderedArtists," ++
        quote term ++ "&limit=" ++ pyOptStr limit ++ "&skip=" ++ pyOptStr skip ∧
    search_track_url term limit skip =
      HTTPClient.TRACK ++ "?fuzzyOr=title," ++ quote term ++ ",artistsTitle," ++
        quote term ++ "&limit=" ++ pyOptStr limit ++ "&skip=" ++ pyOptStr skip ∧
    search_playlist_url term limit skip =
      HTTPClient.PLAYLIST ++ "?fuzzyOr=name," ++ quote term ++
        "&limit=" ++ pyOptStr limit ++ "&skip=" ++ pyOptStr skip ∧
    search_artist_url term Option.none limit skip =
      HTTPClient.ARTIST ++ "?limit=" ++ pyOptStr limit ++ "&skip=" ++ pyOptStr skip ++
        "&fuzzyOr=name," ++ quote term ∧
    search_release_advanced_url title artists limit skip =
      HTTPClient.RELEASE ++ "?fuzzy=title," ++ quote title ++ ",renderedArtists," ++
        quote artists ++ "&limit=" ++ pyOptStr limit ++ "&skip=" ++ pyOptStr skip ∧
    search_track_advanced_url title artists limit skip =
      HTTPClient.TRACK ++ "?fuzzy=title," ++ quote title ++ ",artistsTitle," ++
        quote artists ++ "&limit=" ++ pyOptStr limit ++ "&skip=" ++ pyOptStr skip ∧
    (∀ c ∈ (quote term).data, urlSafeChar c = true) ∧
    (∀ c ∈ (quote title).data, urlSafeChar c = true) ∧
    (∀ c ∈ (quote artists).data, urlSafeChar c = true) :=
  ⟨rfl, rfl, rfl, rfl, rfl, rfl,
    quote_chars_safe term, quote_chars_safe title, quote_chars_safe artists⟩

/-- Witness for C8: a term with a space is percent-encoded into the release
search URL, and the percent sign itself is a URL-safe output character. -/
theorem search_query_operators_and_encoding_witness :
    search_release_url "a b" Option.none Option.none =
      "https://connect.monstercat.com/api/catalog/release?fuzzyOr=title,a%20b,renderedArtists,a%20b&limit=None&skip=None" ∧
    urlSafeChar '%' = true := by
  have h := search_query_operators_and_encoding "a b" "x" "y" Option.none Option.none
  exact ⟨h.1.trans (by rfl), h.2.2.2.2.2.2.1 '%' (by decide)⟩

/-- C9: when limit and skip are omitted (their None defaults), the search
URLs contain the literal texts "limit=None" and "skip=None": the pagination
parameters are interpolated verbatim, not omitted. -/
theorem pagination_none_interpolated_verbatim (term : String) :
    (∃ s t, s ++ "limit=None".data ++ t = (search_release_url term Option.none Option.none).data) ∧
    (∃ s t, s ++ "skip=None".data ++ t = (search_release_url term Option.none Option.none).data) ∧
    (∃ s t, s ++ "limit=None".data ++ t = (search_track_url term Option.none Option.none).data) ∧
    (∃ s t, s ++ "skip=None".data ++ t = (search_track_url term Option.none Option.none).data) ∧
    (∃ s t, s ++ "limit=None".data ++ t = (search_playlist_url term Option.none Option.none).data) ∧
    (∃ s t, s ++ "skip=None".data ++ t = (search_playlist_url term Option.none Option.none).data) := by
  have hrel : (search_release_url term Option.none Option.none).data =
      HTTPClient.RELEASE.data ++ ("?fuzzyOr=title,".data ++ ((quote term).data ++
        (",renderedArtists,".data ++ ((quote term).data ++ ("&limit=".data ++
          ("None".data ++ ("&skip=".data ++ "None".data))))))) := by
    simp only [search_release_url, pyOptStr, string_data_append, List.append_assoc]
  have htrk : (search_track_url term Option.none Option.none).data =
      HTTPClient.TRACK.data ++ ("?fuzzyOr=title,".data ++ ((quote term).data ++
        (",artistsTitle,".data ++ ((quote term).data ++ ("&limit=".data ++
          ("None".data ++ ("&skip=".data ++ "None".data))))))) := by
    simp only [search_track_url, pyOptStr, string_data_append, List.append_assoc]
  have hpl : (search_playlist_url term Option.none Option.none).data =
      HTTPClient.PLAYLIST.data ++ ("?fuzzyOr=name,".data ++ ((quote term).data ++
        ("&limit=".data ++ ("None".data ++ ("&skip=".data ++ "None".data))))) := by
    simp only [search_playlist_url, pyOptStr, string_data_append, List.append_assoc]
  refine ⟨?_, ?_, ?_, ?_, ?_, ?_⟩
  · rw [hrel]
    refine infix_shift _ _ _ (infix_shift _ _ _ (infix_shift _ _ _ (infix_shift _ _ _
      (infix_shift _ _ _ ?_))))
    exact ⟨['&'], "&skip=None".data, by decide⟩
  · rw [hrel]
    refine infix_shift _ _ _ (infix_shift _ _ _ (infix_shift _ _ _ (infix_shift _ _ _
      (infix_shift _ _ _ ?_))))
    exact ⟨"&limit=None&".data, [], by decide⟩
  · rw [htrk]
    refine infix_shift _ _ _ (infix_shift _ _ _ (infix_shift _ _ _ (infix_shift _ _ _
      (infix_shift _ _ _ ?_))))
    exact ⟨['&'], "&skip=None".data, by decide⟩
  · rw [htrk]
    refine infix_shift _ _ _ (infix_shift _ _ _ (infix_shift _ _ _ (infix_shift _ _ _
      (infix_shift _ _ _ ?_))))
    exact ⟨"&limit=None&".data, [], by decide⟩
  · rw [hpl]
    refine infix_shift _ _ _ (infix_shift _ _ _ (infix_shift _ _ _ ?_))
    exact ⟨['&'], "&skip=None".data, by decide⟩
  · rw [hpl]
    refine infix_shift _ _ _ (infix_shift _ _ _ (infix_shift _ _ _ ?_))
    exact ⟨"&limit=None&".data, [], by decide⟩

/-- C10: the two-factor sign-in variant is selected iff the supplied token
is truthy; token 0 and an absent token both post the single-factor email
sign-in. -/
theorem sign_in_two_factor_iff_truthy (email password : String) (token : Option Int) :
    ((∃ t : Int, Client.sign_in email password token =
        SignInRequest.twoFactorSignIn email password t) ↔
      (∃ n : Int, token = some n ∧ n ≠ 0)) ∧
    Client.sign_in email password (some 0) = SignInRequest.emailSignIn email password ∧
    Client.sign_in email password Option.none = SignInRequest.emailSignIn email password := by
  refine ⟨?_, rfl, rfl⟩
  cases token with
  | none => simp [Client.sign_in, optIntTruthy]
  | some n =>
    by_cases hn : n = 0
    · subst hn; simp [Client.sign_in, optIntTruthy]
    · simp [Client.sign_in, optIntTruthy, hn]

end AsyncConnect
